import Mathlib

/-!
# FinHelp — verification of the natural-language specification against the code

This file gives a shallow embedding, in Lean 4, of the parts of the FinHelp
backend (`src/finhelp/…`) that the frozen claims C1–C10 talk about, and proves
or refutes each claim against that embedding.

Conventions used throughout:
* Python `str` values are Lean `String`s; character-level operations
  (`lower()`, substring tests, `replace(' ', '')`) are modelled on the
  underlying `List Char` (`String.data`), which matches CPython semantics on
  the ASCII data these functions handle.
* Python integers and timestamps are `Nat` (timestamps are seconds; the code
  only ever compares differences of `datetime.utcnow()` values).
* `dict.get(k, default)` on request bodies is modelled with `Option.getD`.
* Fallible code (`raise HTTPException…` inside `try`/`except`) is modelled
  with `Except`: a handler body returns `Except PyExc α` and the route wrapper
  applies the handler's own `except Exception` clause.
* The MongoDB collections are lists of documents in insertion order, with a
  counter supplying fresh `ObjectId`s (modelled as `Nat`).
-/

namespace FinHelp

/-! ## Data model (src/finhelp/models.py) -/

/-- `ChatMessage` from models.py: a role and free-text content. -/
structure ChatMessage where
  role : String
  content : String
  deriving DecidableEq, Repr

/-- `EarningsContext` from models.py. -/
structure EarningsContext where
  ticker : String
  quarter : String
  year : String
  summary : String
  transcript_content : String
  deriving DecidableEq, Repr

/-! ## Chat-save token budget (src/finhelp/app.py, both save handlers)

Both registrations of `POST /api/chat/save` (lines 380–441 and 544–640 of
app.py) contain the identical truncation block, factored out here. -/

/-- `len(msg.content) // 4` — the per-message token estimate. -/
def msgTokens (m : ChatMessage) : Nat := m.content.length / 4

/-- `MAX_TOKENS = 8000` from app.py. -/
def MAX_TOKENS : Nat := 8000

/-- `total_chars = sum(len(msg.content) for msg in chat_data.messages)`. -/
def totalChars (msgs : List ChatMessage) : Nat :=
  (msgs.map (fun m => m.content.length)).sum

/-- `estimated_tokens = total_chars // 4`. -/
def estimatedTokens (msgs : List ChatMessage) : Nat := totalChars msgs / 4

/-- The `for msg in reversed(chat_data.messages)` loop of app.py:
walks the reversed list, accumulating `current_tokens` and prepending each
kept message (`truncated_messages.insert(0, msg)` is the `acc` argument),
breaking at the first message that would push the running total past
`MAX_TOKENS`. -/
def truncateGo : List ChatMessage → Nat → List ChatMessage → List ChatMessage
  | [], _, acc => acc
  | m :: rest, current, acc =>
      if current + msgTokens m > MAX_TOKENS then acc
      else truncateGo rest (current + msgTokens m) (m :: acc)

/-- The whole truncation block: `truncated_messages` after the loop. -/
def truncateFromEnd (msgs : List ChatMessage) : List ChatMessage :=
  truncateGo msgs.reverse 0 []

/-- `messages_to_save` as computed by both save handlers: the full list when
the estimate is within budget, the truncated suffix otherwise. -/
def messagesToSave (msgs : List ChatMessage) : List ChatMessage :=
  if estimatedTokens msgs > MAX_TOKENS then truncateFromEnd msgs else msgs

/-! ## Chat-session persistence (src/finhelp/app.py) -/

/-- A `chat_sessions` document as written by the save handlers.  `id` models
the MongoDB `_id` (assigned from a fresh counter on insert); timestamps are
seconds. -/
structure SessionDoc where
  id : Nat
  user_id : String
  messages : List ChatMessage
  earnings_contexts : List EarningsContext
  message_count : Nat
  created_at : Nat
  updated_at : Nat
  deriving DecidableEq, Repr

/-- The `chat_sessions` collection: documents in insertion order plus the
next fresh `_id`. -/
structure ChatDB where
  nextId : Nat
  sessions : List SessionDoc
  deriving DecidableEq, Repr

def emptyChatDB : ChatDB := { nextId := 0, sessions := [] }

/-- Response body of both save handlers. -/
structure SaveResponse where
  success : Bool
  session_id : Nat
  message_count : Nat
  truncated : Bool
  deriving DecidableEq, Repr

/-- First registered handler for `POST /api/chat/save` (app.py lines
380–441): truncates, then unconditionally `insert_one`s a new session with
`created_at` and `updated_at` both set to now. -/
def save_chat_session_v1 (user_id : String) (msgs : List ChatMessage)
    (ctxs : List EarningsContext) (now : Nat) (db : ChatDB) :
    ChatDB × SaveResponse :=
  let toSave := messagesToSave msgs
  let doc : SessionDoc :=
    { id := db.nextId, user_id := user_id, messages := toSave
      earnings_contexts := ctxs, message_count := toSave.length
      created_at := now, updated_at := now }
  ({ nextId := db.nextId + 1, sessions := db.sessions ++ [doc] },
   { success := true, session_id := db.nextId
     message_count := toSave.length
     truncated := toSave.length < msgs.length })

/-- `find_one({"user_id": user_id}, sort=[("updated_at", -1)])`: the user's
session with the greatest `updated_at` (first such document in natural order
on ties, matching MongoDB's behaviour on an unindexed sort). -/
def findMostRecent (user_id : String) (db : ChatDB) : Option SessionDoc :=
  (db.sessions.filter (fun s => s.user_id == user_id)).foldl
    (fun best s =>
      match best with
      | none => some s
      | some b => if s.updated_at > b.updated_at then some s else some b)
    none

/-- Stable insertion step for a descending sort on `updated_at`. -/
def insertByUpdatedDesc (s : SessionDoc) : List SessionDoc → List SessionDoc
  | [] => [s]
  | t :: ts =>
      if t.updated_at ≥ s.updated_at then t :: insertByUpdatedDesc s ts
      else s :: t :: ts

/-- `.sort("updated_at", -1)` over a list of session documents. -/
def sortByUpdatedDesc (l : List SessionDoc) : List SessionDoc :=
  l.foldr insertByUpdatedDesc []

/-- Second registered handler for `POST /api/chat/save` (app.py lines
544–640): truncates, then either updates the user's most recent session in
place (when it was updated less than 3600 s ago) or inserts a new session and
prunes all but the 5 newest of the first 100 listed (`to_list(length=100)`). -/
def save_chat_session_v2 (user_id : String) (msgs : List ChatMessage)
    (ctxs : List EarningsContext) (now : Nat) (db : ChatDB) :
    ChatDB × SaveResponse :=
  let toSave := messagesToSave msgs
  let resp : Nat → SaveResponse := fun sid =>
    { success := true, session_id := sid, message_count := toSave.length
      truncated := toSave.length < msgs.length }
  match findMostRecent user_id db with
  | some existing =>
      if now - existing.updated_at < 3600 then
        -- `update_one({"_id": …}, {"$set": chat_session})`: overwrite the
        -- listed fields in place; `created_at` is not in the `$set` document.
        let db' : ChatDB :=
          { db with sessions := db.sessions.map (fun s =>
              if s.id = existing.id then
                { s with
                  user_id := user_id,
                  messages := toSave,
                  earnings_contexts := ctxs,
                  message_count := toSave.length,
                  updated_at := now }
              else s) }
        (db', resp existing.id)
      else
        let doc : SessionDoc :=
          { id := db.nextId, user_id := user_id, messages := toSave
            earnings_contexts := ctxs, message_count := toSave.length
            created_at := now, updated_at := now }
        let inserted : ChatDB :=
          { nextId := db.nextId + 1, sessions := db.sessions ++ [doc] }
        let all := (sortByUpdatedDesc
          (inserted.sessions.filter (fun s => s.user_id == user_id))).take 100
        let db' : ChatDB :=
          if all.length > 5 then
            let toDelete := (all.drop 5).map (fun s => s.id)
            { inserted with sessions :=
                inserted.sessions.filter (fun s => !(toDelete.contains s.id)) }
          else inserted
        (db', resp db.nextId)
  | none =>
      let doc : SessionDoc :=
        { id := db.nextId, user_id := user_id, messages := toSave
          earnings_contexts := ctxs, message_count := toSave.length
          created_at := now, updated_at := now }
      ({ nextId := db.nextId + 1, sessions := db.sessions ++ [doc] },
       resp db.nextId)

/-- The type of a save-route handler. -/
def SaveHandler : Type :=
  String → List ChatMessage → List EarningsContext → Nat → ChatDB →
    ChatDB × SaveResponse

/-- app.py registers `POST /api/chat/save` twice, in this order: the
decorator at line 380 first, the one at line 544 second.  (The second
`async def save_chat_session` rebinds the Python name but the first function
object is already registered on the router.) -/
def registeredChatSaveRoutes : List (String × SaveHandler) :=
  [("POST /api/chat/save", save_chat_session_v1),
   ("POST /api/chat/save", save_chat_session_v2)]

/-- Starlette dispatches a request to the first registered route that fully
matches its path and method, in registration order. -/
def dispatchChatSave : Option SaveHandler :=
  (registeredChatSaveRoutes.find? (fun r => r.1 == "POST /api/chat/save")).map
    (fun r => r.2)

/-- One entry of the `GET /api/chat/history` response (app.py lines
444–478). -/
structure HistoryEntry where
  id : Nat
  message_count : Nat
  created_at : Nat
  updated_at : Nat
  preview : String
  deriving DecidableEq, Repr

/-- `GET /api/chat/history` (app.py lines 444–478): the user's sessions
sorted by `updated_at` descending, limited to `limit` (default 10), each
reduced to id, count, timestamps and a 100-character preview of the last
message. -/
def get_chat_history (limit : Nat) (user_id : String) (db : ChatDB) :
    List HistoryEntry × Nat :=
  let docs := (sortByUpdatedDesc
    (db.sessions.filter (fun s => s.user_id == user_id))).take limit
  let entries := docs.map (fun s =>
    ({ id := s.id, message_count := s.message_count
       created_at := s.created_at, updated_at := s.updated_at
       preview := match s.messages.getLast? with
         | some m => ⟨m.content.data.take 100⟩
         | none => "" } : HistoryEntry))
  (entries, entries.length)

/-! ## String helpers modelling Python `str` operations -/

/-- ASCII lowercasing of one character, as Python `str.lower()` acts on the
ASCII tickers, quarters, years, titles and URLs these functions handle. -/
def lowerChar : Char → Char
  | 'A' => 'a' | 'B' => 'b' | 'C' => 'c' | 'D' => 'd' | 'E' => 'e' | 'F' => 'f'
  | 'G' => 'g' | 'H' => 'h' | 'I' => 'i' | 'J' => 'j' | 'K' => 'k' | 'L' => 'l'
  | 'M' => 'm' | 'N' => 'n' | 'O' => 'o' | 'P' => 'p' | 'Q' => 'q' | 'R' => 'r'
  | 'S' => 's' | 'T' => 't' | 'U' => 'u' | 'V' => 'v' | 'W' => 'w' | 'X' => 'x'
  | 'Y' => 'y' | 'Z' => 'z'
  | c => c

/-- ASCII uppercasing of one character, as Python `str.upper()`. -/
def upperChar : Char → Char
  | 'a' => 'A' | 'b' => 'B' | 'c' => 'C' | 'd' => 'D' | 'e' => 'E' | 'f' => 'F'
  | 'g' => 'G' | 'h' => 'H' | 'i' => 'I' | 'j' => 'J' | 'k' => 'K' | 'l' => 'L'
  | 'm' => 'M' | 'n' => 'N' | 'o' => 'O' | 'p' => 'P' | 'q' => 'Q' | 'r' => 'R'
  | 's' => 'S' | 't' => 'T' | 'u' => 'U' | 'v' => 'V' | 'w' => 'W' | 'x' => 'X'
  | 'y' => 'Y' | 'z' => 'Z'
  | c => c

/-- Python `s.lower()` (character-wise). -/
def lowerStr (s : String) : String := ⟨s.data.map lowerChar⟩

/-- Python `s.upper()`. -/
def upperStr (s : String) : String := ⟨s.data.map upperChar⟩

/-- Python `pat in s` (substring containment). -/
def strContains (s pat : String) : Bool := decide (pat.data <:+: s.data)

/-- Python `s.replace(' ', '')`. -/
def removeSpaces (s : String) : String := ⟨s.data.filter (fun c => c ≠ ' ')⟩

/-- Python `s[-2:]`. -/
def lastTwo (s : String) : String := ⟨s.data.drop (s.data.length - 2)⟩

/-! ## Transcript search filter (src/finhelp/earnings.py, lines 29–143)

The per-result filter applied by `search_for_any_transcript` to each web
search result, exactly as the chain of `continue` guards in the code. -/

/-- `quarter_months` from earnings.py (note the duplicated `May`).  The dict
lookup `quarter_months[quarter.upper()]` raises `KeyError` off `Q1`–`Q4`;
callers only reach it with a validated quarter. -/
def quarter_months : String → List String
  | "Q1" => ["January", "February", "March", "Jan", "Feb", "Mar"]
  | "Q2" => ["April", "May", "June", "Apr", "May", "Jun"]
  | "Q3" => ["July", "August", "September", "Jul", "Aug", "Sep"]
  | "Q4" => ["October", "November", "December", "Oct", "Nov", "Dec"]
  | _ => []

/-- `is_transcript`: "transcript" in lowered title or URL, or "earnings call"
in the lowered title. -/
def is_transcript_result (title url : String) : Bool :=
  strContains (lowerStr title) "transcript" ||
  strContains (lowerStr url) "transcript" ||
  strContains (lowerStr title) "earnings call"

/-- The ticker guard: `ticker.lower()` in lowered title or URL. -/
def mentions_ticker (ticker title url : String) : Bool :=
  strContains (lowerStr title) (lowerStr ticker) ||
  strContains (lowerStr url) (lowerStr ticker)

/-- `combined_text = f"{title} {url} {content}".lower()`. -/
def combined_text (title url content : String) : String :=
  lowerStr (title ++ " " ++ url ++ " " ++ content)

/-- `calendar_quarter_patterns` from earnings.py. -/
def calendar_quarter_patterns (quarter year : String) : List String :=
  [upperStr quarter ++ " " ++ year,
   upperStr quarter ++ ", " ++ year,
   upperStr quarter ++ "-" ++ year]

/-- `has_calendar_quarter`: some pattern (lowered) occurs in the combined
text, or — checked only when no pattern hit — some month of the quarter
occurs together with the year string. -/
def has_calendar_quarter (quarter year ct : String) : Bool :=
  (calendar_quarter_patterns quarter year).any (fun p => strContains ct (lowerStr p)) ||
  (quarter_months (upperStr quarter)).any (fun m =>
    strContains ct (lowerStr m) && strContains ct year)

/-- The fiscal-year rejection guard:
`'fy' in combined_text and f'fy{year[-2:]}' in combined_text.replace(' ', '')`. -/
def fiscal_year_reject (year ct : String) : Bool :=
  strContains ct "fy" && strContains (removeSpaces ct) ("fy" ++ lastTwo year)

/-- `has_year = year in title or year in url or year in content`
(on the original, un-lowered fields). -/
def has_year_field (year title url content : String) : Bool :=
  strContains title year || strContains url year || strContains content year

/-- Source classification by URL substring (earnings.py lines 123–133). -/
def classify_source (url : String) : String :=
  if strContains url "seekingalpha.com" then "Seeking Alpha"
  else if strContains url "fool.com" then "The Motley Fool"
  else if strContains url "finance.yahoo.com" then "Yahoo Finance"
  else if strContains url "ir." || strContains url "investor" then "Company IR"
  else "Other"

/-- Whether `search_for_any_transcript` accepts one candidate result, i.e.
the result survives every `continue` guard and passes the final
`has_calendar_quarter and has_year` test. -/
def acceptResult (ticker quarter year title url content : String) : Bool :=
  if !is_transcript_result title url then false
  else if !mentions_ticker ticker title url then false
  else
    let ct := combined_text title url content
    if fiscal_year_reject year ct then false
    else has_calendar_quarter quarter year ct &&
         has_year_field year title url content

/-! ## Earnings Analysis Workflow (src/finhelp/agent.py)

The LangGraph `StateGraph` is embedded as an interpreter over the node
functions and the two routing functions, with the graph's conditional-edge
mappings (lines 123–126) as explicit successor maps.  Calls to the external
search/extract/summarize services are supplied by an oracle; the `try`/
`except` blocks inside each node are covered by the `exc` outcome, which the
node captures into the `error` field.

The Python state field `error` holds `""` initially, a message when a step
failed, and `None` after `retry_node` clears it; all reads are truthiness
tests, so it is modelled as `Option String` with `none` for both falsy
values. -/

/-- `EarningsAgentState` from agent.py; `messages` keeps the `content` of the
accumulated `HumanMessage`/`AIMessage` objects. -/
structure EarningsAgentState where
  ticker : String
  quarter : String
  year : String
  messages : List String
  transcript_url : String
  transcript_source : String
  transcript_content : String
  summary : String
  error : Option String
  retry_count : Nat
  deriving DecidableEq, Repr

/-- Outcome of one call to `search_for_any_transcript` as observed by
`search_node`: the result dict on normal return, or a raised exception. -/
inductive SearchOutcome
  | found (url title source : String)
  | notFound (error : String)
  | exc (msg : String)
  deriving DecidableEq, Repr

/-- Outcome of one call to `extract_transcript_content`. -/
inductive ExtractOutcome
  | ok (content : String)
  | fail (error : String)
  | exc (msg : String)
  deriving DecidableEq, Repr

/-- Outcome of one call to `summarize_transcript_llm`. -/
inductive SummarizeOutcome
  | ok (text : String)
  | exc (msg : String)
  deriving DecidableEq, Repr

/-- The external world for one workflow run: the `k`-th invocation of the
search service returns `search k`; extract and summarize are each invoked at
most once. -/
structure WorkflowOracle where
  search : Nat → SearchOutcome
  extract : ExtractOutcome
  summarize : SummarizeOutcome

/-- The error message a `SearchOutcome` writes into the state, if any. -/
def searchErr : SearchOutcome → Option String
  | .found _ _ _ => none
  | .notFound e => some e
  | .exc e => some e

/-- `search_node` from agent.py. -/
def search_node (r : SearchOutcome) (s : EarningsAgentState) : EarningsAgentState :=
  let s := { s with messages := s.messages ++
    ["🔎 Searching web for " ++ s.quarter ++ " " ++ s.year ++ " transcript..."] }
  match r with
  | .found url _title source =>
      { s with transcript_url := url, transcript_source := source,
               messages := s.messages ++ ["✅ Found on " ++ source] }
  | .notFound e =>
      { s with error := some e, messages := s.messages ++ ["❌ " ++ e] }
  | .exc e =>
      { s with error := some e, messages := s.messages ++ ["❌ Error: " ++ e] }

/-- `extract_node` from agent.py (the `{len:,}` thousands formatting of the
character count is modelled as a plain decimal rendering). -/
def extract_node (r : ExtractOutcome) (s : EarningsAgentState) : EarningsAgentState :=
  let s := { s with messages := s.messages ++ ["📄 Extracting content..."] }
  match r with
  | .ok c =>
      { s with transcript_content := c,
               messages := s.messages ++
                 ["✅ Extracted " ++ toString c.length ++ " characters"] }
  | .fail e =>
      { s with error := some e, messages := s.messages ++ ["❌ " ++ e] }
  | .exc e =>
      { s with error := some e, messages := s.messages ++ ["❌ Error: " ++ e] }

/-- `summarize_node` from agent.py. -/
def summarize_node (r : SummarizeOutcome) (s : EarningsAgentState) : EarningsAgentState :=
  let s := { s with messages := s.messages ++ ["🤖 Analyzing..."] }
  match r with
  | .ok text =>
      { s with summary := text, messages := s.messages ++ ["✅ Complete!"] }
  | .exc e =>
      { s with error := some e, messages := s.messages ++ ["❌ Error: " ++ e] }

/-- `retry_node` from agent.py: bump the counter, clear the error, narrate,
then run the search logic again (`return await search_node(state)`). -/
def retry_node (r : SearchOutcome) (s : EarningsAgentState) : EarningsAgentState :=
  let s := { s with retry_count := s.retry_count + 1, error := none,
                    messages := s.messages ++ ["🔄 Retrying..."] }
  search_node r s

/-- The value of `route_after_search`. -/
inductive SearchRoute
  | extract
  | retry
  | stop
  deriving DecidableEq, Repr

/-- `route_after_search` from agent.py: an error routes to retry while
`retry_count < 1`, else to end; otherwise a found URL routes to extract. -/
def route_after_search (s : EarningsAgentState) : SearchRoute :=
  if s.error.isSome then
    (if s.retry_count < 1 then .retry else .stop)
  else if s.transcript_url ≠ "" then .extract
  else .stop

/-- `route_after_extract` from agent.py: summarize iff content was extracted
and no error is set. -/
def route_after_extract (s : EarningsAgentState) : Bool :=
  s.transcript_content ≠ "" && s.error.isNone

/-- The workflow's node names. -/
inductive WNode
  | search
  | retry
  | extract
  | summarize
  deriving DecidableEq, Repr

/-- `add_conditional_edges("search", route_after_search, {"extract":
"extract", "retry": "retry", "end": END})`. -/
def searchEdgeMap : SearchRoute → Option WNode
  | .extract => some .extract
  | .retry => some .retry
  | .stop => none

/-- `add_conditional_edges("retry", route_after_search, {"extract":
"extract", "retry": END, "end": END})` — after a retry, both the "retry" and
"end" outcomes terminate. -/
def retryEdgeMap : SearchRoute → Option WNode
  | .extract => some .extract
  | .retry => none
  | .stop => none

/-- `add_conditional_edges("extract", route_after_extract, {"summarize":
"summarize", "end": END})`. -/
def extractEdgeMap : Bool → Option WNode
  | true => some .summarize
  | false => none

/-- Execute one node: returns the new state and the number of search-service
calls made so far. -/
def execNode (o : WorkflowOracle) : WNode → EarningsAgentState × Nat →
    EarningsAgentState × Nat
  | .search, (s, k) => (search_node (o.search k) s, k + 1)
  | .retry, (s, k) => (retry_node (o.search k) s, k + 1)
  | .extract, (s, k) => (extract_node o.extract s, k)
  | .summarize, (s, k) => (summarize_node o.summarize s, k)

/-- The successor of a node under the graph's edge table, given the state it
produced (`add_edge("summarize", END)` gives summarize no successor). -/
def nextNode : WNode → EarningsAgentState → Option WNode
  | .search, s => searchEdgeMap (route_after_search s)
  | .retry, s => retryEdgeMap (route_after_search s)
  | .extract, s => extractEdgeMap (route_after_extract s)
  | .summarize, _ => none

/-- Run the graph from a node, recording the trace of executed nodes.  The
fuel mirrors LangGraph's recursion limit (default 25); the graph is acyclic
with longest path 4, so the fuel is never exhausted in `run_workflow`. -/
def runFrom (o : WorkflowOracle) : Nat → WNode → EarningsAgentState × Nat →
    EarningsAgentState × List WNode
  | 0, _, (s, _) => (s, [])
  | fuel + 1, n, (s, k) =>
      let sk := execNode o n (s, k)
      match nextNode n sk.1 with
      | none => (sk.1, [n])
      | some n' =>
          let ft := runFrom o fuel n' sk
          (ft.1, n :: ft.2)

/-- `initial_state` built by `run_earnings_analysis` (agent.py lines
132–143); the seed `HumanMessage` uses the un-normalized arguments. -/
def initial_state (ticker quarter year : String) : EarningsAgentState :=
  { ticker := upperStr ticker, quarter := upperStr quarter, year := year,
    messages := ["Analyze " ++ ticker ++ " " ++ quarter ++ " " ++ year],
    transcript_url := "", transcript_source := "", transcript_content := "",
    summary := "", error := none, retry_count := 0 }

/-- `earnings_agent.ainvoke(initial_state)` with the set entry point
`search`, together with the trace of executed nodes. -/
def run_workflow (o : WorkflowOracle) (ticker quarter year : String) :
    EarningsAgentState × List WNode :=
  runFrom o 25 .search (initial_state ticker quarter year, 0)

/-- The dict returned by `run_earnings_analysis` (agent.py lines 147–157). -/
structure AnalysisResult where
  ticker : String
  quarter : String
  year : String
  time_period : String
  summary : String
  source_url : String
  source : String
  steps : List String
  error : Option String
  deriving DecidableEq, Repr

/-- `final_state.get(key, default)` for a string-valued state key.  Every
key read by `run_earnings_analysis` is present in the final state (the
initial state sets them all), so the argument is always `some`. -/
def getStrD (v : Option String) (dflt : String) : String := v.getD dflt

/-- `run_earnings_analysis` from agent.py. -/
def run_earnings_analysis (o : WorkflowOracle) (ticker quarter year : String) :
    AnalysisResult :=
  let fin := (run_workflow o ticker quarter year).1
  { ticker := fin.ticker, quarter := fin.quarter, year := fin.year,
    time_period := fin.quarter ++ " " ++ fin.year,
    summary := getStrD (some fin.summary) "",
    source_url := getStrD (some fin.transcript_url) "",
    source := getStrD (some fin.transcript_source) "Unknown",
    steps := fin.messages,
    error := fin.error }

/-! ## HTTP endpoint exception model (src/finhelp/app.py)

`earnings_analyze_endpoint` and `get_current_user_info` raise
`HTTPException` inside a `try:` whose only handler is
`except Exception as e: raise HTTPException(status_code=500, detail=str(e))`
— with no preceding `except HTTPException: raise` clause (unlike `signup`,
`login`, `get_chat_session` and `delete_chat_session`, which have one).
Since `fastapi.HTTPException` subclasses `Exception`, the handler's own
4xx exceptions are caught and re-raised as 500. -/

/-- An exception raised inside a handler body. -/
inductive PyExc
  | http (status : Nat) (detail : String)
  | other (msg : String)
  deriving DecidableEq, Repr

/-- `str(e)` for a caught exception; for a Starlette `HTTPException` its
`__str__` is `f"{status_code}: {detail}"`. -/
def excStr : PyExc → String
  | .http s d => toString s ++ ": " ++ d
  | .other m => m

/-- The HTTP outcome of a route call. -/
inductive HTTPReply (α : Type)
  | success (v : α)
  | failure (status : Nat) (detail : String)
  deriving DecidableEq, Repr

/-- The HTTP status a reply carries (FastAPI's default success status). -/
def replyStatus {α : Type} : HTTPReply α → Nat
  | .success _ => 200
  | .failure s _ => s

/-- The blanket `except Exception as e: raise HTTPException(500, str(e))`
clause shared by these handlers. -/
def catchAll {α : Type} : Except PyExc α → HTTPReply α
  | .ok v => .success v
  | .error e => .failure 500 (excStr e)

/-- Body of `POST /api/earnings-analyze` (app.py lines 91–103): the JSON
request dict, with `request.get(key, "")` on possibly missing fields. -/
structure EarningsAnalyzeRequest where
  ticker : Option String
  quarter : Option String
  year : Option String

/-- The `try:` block of `earnings_analyze_endpoint`. -/
def earnings_analyze_body (o : WorkflowOracle) (r : EarningsAnalyzeRequest) :
    Except PyExc AnalysisResult :=
  let ticker := upperStr (r.ticker.getD "")
  let quarter := upperStr (r.quarter.getD "")
  let year := r.year.getD ""
  if ticker == "" || quarter == "" || year == "" then
    .error (.http 400 "ticker, quarter, and year are required")
  else if !(["Q1", "Q2", "Q3", "Q4"].contains quarter) then
    .error (.http 400 "quarter must be Q1, Q2, Q3, or Q4")
  else
    .ok (run_earnings_analysis o ticker quarter year)

/-- `earnings_analyze_endpoint` from app.py: the body inside the blanket
`except Exception` clause. -/
def earnings_analyze_endpoint (o : WorkflowOracle)
    (r : EarningsAnalyzeRequest) : HTTPReply AnalysisResult :=
  catchAll (earnings_analyze_body o r)

/-! ## `GET /api/auth/me` (src/finhelp/app.py lines 359–378) -/

/-- Modelled from the spec: the output of `get_current_user`
(§4.4 "resolve current user"), the dependency in `src/finhelp/auth.py`,
which is not present under `src/`; on a valid bearer token it yields the encoded user
id and email. -/
structure AuthUser where
  user_id : String
  email : String
  deriving DecidableEq, Repr

/-- A `users` collection document (fields per app.py `signup`). -/
structure UserDoc where
  id : String
  email : String
  name : String
  password : String
  deriving DecidableEq, Repr

/-- The success body of `GET /api/auth/me`. -/
structure UserInfo where
  id : String
  email : String
  name : String
  deriving DecidableEq, Repr

/-- The `try:` block of `get_current_user_info`: look the token's user id up
in the `users` collection and raise a 404 when absent. -/
def get_current_user_info_body (cu : AuthUser) (users : List UserDoc) :
    Except PyExc UserInfo :=
  match users.find? (fun u => u.id == cu.user_id) with
  | none => .error (.http 404 "User not found")
  | some u => .ok { id := u.id, email := u.email, name := u.name }

/-- `get_current_user_info` from app.py: the body inside the blanket
`except Exception` clause (this handler has no `except HTTPException:
raise`). -/
def get_current_user_info (cu : AuthUser) (users : List UserDoc) :
    HTTPReply UserInfo :=
  catchAll (get_current_user_info_body cu users)

/-! ## Tool-Calling Chat Orchestrator binding (src/finhelp/chat.py) -/

/-- The top-level names defined by module `finhelp.agent`
(src/finhelp/agent.py). -/
def agentModuleDefs : List String :=
  ["EarningsAgentState", "search_node", "extract_node", "summarize_node",
   "route_after_search", "route_after_extract", "retry_node", "workflow",
   "earnings_agent", "run_earnings_analysis"]

/-- Python's `from .agent import name` in chat.py line 4: succeeds exactly
when the module defines `name`, else raises `ImportError` (so the importing
module never loads). -/
def importFromAgent (name : String) : Except String String :=
  if agentModuleDefs.contains name then .ok name
  else .error ("ImportError: cannot import name " ++ name ++
    " from finhelp.agent")

/-- The tool arguments the model requested for `analyze_earnings_call`, as
parsed from `tool_call.function.arguments` in chat.py. -/
structure ToolCallArgs where
  ticker : Option String
  time_period : Option String
  deriving DecidableEq, Repr

/-- The argument defaults applied at chat.py lines 94–97:
`function_args.get("ticker", ticker)` and
`function_args.get("time_period", "latest")`. -/
def earningsToolCallArgs (args : ToolCallArgs) (scoping_ticker : String) :
    String × String :=
  (args.ticker.getD scoping_ticker, args.time_period.getD "latest")

/-! ## Truncation lemmas (claims C1 and C10) -/

/-- Estimated token count of a message list, `sum(len // 4)` per message. -/
def tokSum (msgs : List ChatMessage) : Nat := (msgs.map msgTokens).sum

theorem truncateGo_exists_prefix (l : List ChatMessage) :
    ∀ (c : Nat) (acc : List ChatMessage),
      ∃ p, p <+: l ∧ truncateGo l c acc = p.reverse ++ acc := by
  induction l with
  | nil =>
      intro c acc
      exact ⟨[], List.nil_prefix, by simp [truncateGo]⟩
  | cons m rest ih =>
      intro c acc
      by_cases h : c + msgTokens m > MAX_TOKENS
      · exact ⟨[], List.nil_prefix, by simp [truncateGo, h]⟩
      · obtain ⟨p, hp, he⟩ := ih (c + msgTokens m) (m :: acc)
        refine ⟨m :: p, ?_, ?_⟩
        · exact (List.cons_prefix_cons).2 ⟨rfl, hp⟩
        · simp [truncateGo, h, he]

theorem truncateGo_tokSum (l : List ChatMessage) :
    ∀ (c : Nat) (acc : List ChatMessage), c ≤ MAX_TOKENS → c = tokSum acc →
      tokSum (truncateGo l c acc) ≤ MAX_TOKENS := by
  induction l with
  | nil =>
      intro c acc hc hacc
      simpa [truncateGo, ← hacc] using hc
  | cons m rest ih =>
      intro c acc hc hacc
      by_cases h : c + msgTokens m > MAX_TOKENS
      · simpa [truncateGo, h, ← hacc] using hc
      · have hsum : c + msgTokens m = tokSum (m :: acc) := by
          have h2 : tokSum (m :: acc) = msgTokens m + tokSum acc := by
            simp only [tokSum, List.map_cons, List.sum_cons]
          omega
        simpa [truncateGo, h] using
          ih (c + msgTokens m) (m :: acc) (by omega) hsum

theorem truncateFromEnd_suffix (msgs : List ChatMessage) :
    truncateFromEnd msgs <:+ msgs := by
  obtain ⟨p, hp, he⟩ := truncateGo_exists_prefix msgs.reverse 0 []
  have h1 : truncateFromEnd msgs = p.reverse := by
    simp [truncateFromEnd, he]
  rw [h1]
  have h2 : (p.reverse).reverse <+: msgs.reverse := by
    simpa using hp
  exact (List.reverse_prefix).1 h2

theorem tokSum_truncateFromEnd_le (msgs : List ChatMessage) :
    tokSum (truncateFromEnd msgs) ≤ MAX_TOKENS :=
  truncateGo_tokSum msgs.reverse 0 [] (by simp [MAX_TOKENS]) (by simp [tokSum])

theorem tokSum_le_estimatedTokens (msgs : List ChatMessage) :
    tokSum msgs ≤ estimatedTokens msgs := by
  induction msgs with
  | nil => simp [tokSum, estimatedTokens, totalChars]
  | cons m rest ih =>
      have h1 : tokSum (m :: rest) = msgTokens m + tokSum rest := by
        simp [tokSum]
      have h2 : estimatedTokens (m :: rest) =
          (m.content.length + totalChars rest) / 4 := by
        simp [estimatedTokens, totalChars]
      calc tokSum (m :: rest) = msgTokens m + tokSum rest := h1
        _ ≤ m.content.length / 4 + totalChars rest / 4 := by
            have := ih
            simp only [msgTokens, estimatedTokens] at *
            omega
        _ ≤ (m.content.length + totalChars rest) / 4 :=
            Nat.add_div_le_add_div _ _ _
        _ = estimatedTokens (m :: rest) := h2.symm

theorem messagesToSave_suffix (msgs : List ChatMessage) :
    messagesToSave msgs <:+ msgs := by
  unfold messagesToSave
  split
  · exact truncateFromEnd_suffix msgs
  · exact List.suffix_refl msgs

theorem tokSum_messagesToSave_le (msgs : List ChatMessage) :
    tokSum (messagesToSave msgs) ≤ MAX_TOKENS := by
  unfold messagesToSave
  split
  · exact tokSum_truncateFromEnd_le msgs
  · exact le_trans (tokSum_le_estimatedTokens msgs) (by omega)

/-- C1 (amended): for every save through the effective handler, the saved
message list is a suffix of the submitted one with estimated token sum at
most 8000; `truncated` reports exactly whether a message was dropped; and a
list under the budget is saved whole with `truncated = false`. -/
theorem save_token_budget (u : String) (msgs : List ChatMessage)
    (ctxs : List EarningsContext) (now : Nat) (db : ChatDB) :
    (save_chat_session_v1 u msgs ctxs now db).1.sessions =
      db.sessions ++
        [{ id := db.nextId, user_id := u, messages := messagesToSave msgs,
           earnings_contexts := ctxs,
           message_count := (messagesToSave msgs).length,
           created_at := now, updated_at := now }] ∧
    messagesToSave msgs <:+ msgs ∧
    tokSum (messagesToSave msgs) ≤ MAX_TOKENS ∧
    ((save_chat_session_v1 u msgs ctxs now db).2.truncated = true ↔
      (messagesToSave msgs).length < msgs.length) ∧
    (MAX_TOKENS < estimatedTokens msgs ∨
      (messagesToSave msgs = msgs ∧
        (save_chat_session_v1 u msgs ctxs now db).2.truncated = false)) := by
  refine ⟨rfl, messagesToSave_suffix msgs, tokSum_messagesToSave_le msgs,
    by simp [save_chat_session_v1], ?_⟩
  by_cases h : MAX_TOKENS < estimatedTokens msgs
  · exact Or.inl h
  · refine Or.inr ⟨?_, ?_⟩
    · simp [messagesToSave, h]
    · simp [save_chat_session_v1, messagesToSave, h]

/-- Unfolding lemma for `msgTokens`, stated at symbolic arguments so that
instances at large concrete contents never force kernel evaluation. -/
theorem msgTokens_mk (r c : String) : msgTokens ⟨r, c⟩ = c.length / 4 := rfl

/-- The 16003-character message content used in the C1 counterexample. -/
def cexBig : String := ⟨List.replicate 16003 'a'⟩

theorem cexBig_length : cexBig.length = 16003 :=
  List.length_replicate 16003 'a'

attribute [irreducible] cexBig

/-- Two messages of 16003 characters each: total 32006 characters, estimated
32006 / 4 = 8001 tokens. -/
def cexMsgs : List ChatMessage :=
  [⟨"user", cexBig⟩, ⟨"assistant", cexBig⟩]

theorem cexMsgs_estimated : estimatedTokens cexMsgs = 8001 := by
  have h : totalChars cexMsgs = cexBig.length + (cexBig.length + 0) := by
    simp only [totalChars, cexMsgs, List.map_cons, List.map_nil,
      List.sum_cons, List.sum_nil]
  simp only [estimatedTokens]
  rw [h, cexBig_length]

theorem cexMsgs_tokens_user : msgTokens ⟨"user", cexBig⟩ = 4000 :=
  Eq.trans (msgTokens_mk "user" cexBig)
    (Eq.trans (congrArg (fun n => n / 4) cexBig_length) (by norm_num))

theorem cexMsgs_tokens_assistant : msgTokens ⟨"assistant", cexBig⟩ = 4000 :=
  Eq.trans (msgTokens_mk "assistant" cexBig)
    (Eq.trans (congrArg (fun n => n / 4) cexBig_length) (by norm_num))

theorem cexMsgs_keep_all : messagesToSave cexMsgs = cexMsgs := by
  unfold messagesToSave
  rw [cexMsgs_estimated]
  rw [if_pos (by norm_num [MAX_TOKENS])]
  show truncateGo cexMsgs.reverse 0 [] = cexMsgs
  have hrev : cexMsgs.reverse =
      [⟨"assistant", cexBig⟩, ⟨"user", cexBig⟩] := by
    simp [cexMsgs]
  rw [hrev]
  simp [truncateGo, cexMsgs_tokens_user, cexMsgs_tokens_assistant,
    MAX_TOKENS, cexMsgs]

/-- C1 counterexample: a message list whose `total // 4` estimate exceeds
8000 but whose response reports `truncated = false` (no message is dropped,
because the per-message `len // 4` floors sum to exactly 8000). -/
theorem save_token_budget_counterexample :
    MAX_TOKENS < estimatedTokens cexMsgs ∧
    (save_chat_session_v1 "u" cexMsgs [] 0 emptyChatDB).2.truncated = false := by
  constructor
  · simp [cexMsgs_estimated, MAX_TOKENS]
  · simp [save_chat_session_v1, cexMsgs_keep_all]

/-- C10: when the newest (last) submitted message alone estimates above 8000
tokens, the truncation loop keeps nothing: the session is saved with an
empty message list and the response reports success with `message_count = 0`
and `truncated = true`. -/
theorem save_oversized_newest_message (u : String)
    (ctxs : List EarningsContext) (now : Nat) (db : ChatDB)
    (msgs : List ChatMessage) (m : ChatMessage)
    (hlast : msgs.getLast? = some m) (hbig : MAX_TOKENS < msgTokens m) :
    messagesToSave msgs = [] ∧
    (save_chat_session_v1 u msgs ctxs now db).1.sessions =
      db.sessions ++
        [{ id := db.nextId, user_id := u, messages := [],
           earnings_contexts := ctxs, message_count := 0,
           created_at := now, updated_at := now }] ∧
    (save_chat_session_v1 u msgs ctxs now db).2.success = true ∧
    (save_chat_session_v1 u msgs ctxs now db).2.message_count = 0 ∧
    (save_chat_session_v1 u msgs ctxs now db).2.truncated = true := by
  have hrev : ∃ t, msgs.reverse = m :: t := by
    have h1 : msgs.reverse.head? = some m := by
      rw [List.head?_reverse]; exact hlast
    cases hr : msgs.reverse with
    | nil => rw [hr] at h1; simp at h1
    | cons a t =>
        rw [hr] at h1
        simp at h1
        exact ⟨t, by rw [h1]⟩
  obtain ⟨t, ht⟩ := hrev
  have hmem : m ∈ msgs := by
    have : m ∈ msgs.reverse := by rw [ht]; exact List.mem_cons_self m t
    simpa using this
  have hne : msgs ≠ [] := by
    intro h; rw [h] at hmem; simp at hmem
  have hest : MAX_TOKENS < estimatedTokens msgs := by
    have hle : m.content.length ≤ totalChars msgs := by
      apply List.single_le_sum (fun x _ => Nat.zero_le x)
      exact List.mem_map_of_mem (fun mm => mm.content.length) hmem
    have := Nat.div_le_div_right (c := 4) hle
    simp only [msgTokens] at hbig
    simp only [estimatedTokens]
    omega
  have hkeep : messagesToSave msgs = [] := by
    simp only [messagesToSave, truncateFromEnd, if_pos hest, ht]
    simp [truncateGo, hbig]
  refine ⟨hkeep, ?_, rfl, ?_, ?_⟩
  · simp [save_chat_session_v1, hkeep]
  · simp [save_chat_session_v1, hkeep]
  · simp [save_chat_session_v1, hkeep]
    exact List.length_pos.2 hne

/-- The 32004-character content used in the C10 witness: a single message
estimating 32004 / 4 = 8001 tokens. -/
def hugeContent : String := ⟨List.replicate 32004 'a'⟩

theorem hugeContent_length : hugeContent.length = 32004 :=
  List.length_replicate 32004 'a'

attribute [irreducible] hugeContent

theorem hugeContent_tokens : msgTokens ⟨"user", hugeContent⟩ = 8001 :=
  Eq.trans (msgTokens_mk "user" hugeContent)
    (Eq.trans (congrArg (fun n => n / 4) hugeContent_length) (by norm_num))

/-- Witness for C10 at a concrete input. -/
theorem save_oversized_newest_message_witness :
    messagesToSave [(⟨"user", hugeContent⟩ : ChatMessage)] = [] ∧
    (save_chat_session_v1 "u" [⟨"user", hugeContent⟩] [] 0 emptyChatDB).1.sessions =
      emptyChatDB.sessions ++
        [{ id := emptyChatDB.nextId, user_id := "u", messages := [],
           earnings_contexts := [], message_count := 0,
           created_at := 0, updated_at := 0 }] ∧
    (save_chat_session_v1 "u" [⟨"user", hugeContent⟩] [] 0 emptyChatDB).2.success = true ∧
    (save_chat_session_v1 "u" [⟨"user", hugeContent⟩] [] 0 emptyChatDB).2.message_count = 0 ∧
    (save_chat_session_v1 "u" [⟨"user", hugeContent⟩] [] 0 emptyChatDB).2.truncated = true :=
  save_oversized_newest_message "u" [] 0 emptyChatDB
    [⟨"user", hugeContent⟩] ⟨"user", hugeContent⟩ rfl
    (by rw [hugeContent_tokens]; simp [MAX_TOKENS])

/-! ## Session merge and retention (claims C2 and C3)

The effective behaviour of `POST /api/chat/save` is decided by which of the
two registered handlers Starlette dispatches to: the first one. -/

/-- The two chat saves of the C2 scenario, 10 seconds apart (well inside the
3600-second freshness window), through the first-registered handler. -/
def c2FirstSave : ChatDB × SaveResponse :=
  save_chat_session_v1 "u" [⟨"user", "hi"⟩] [] 0 emptyChatDB

def c2SecondSave : ChatDB × SaveResponse :=
  save_chat_session_v1 "u" [⟨"user", "hi"⟩, ⟨"assistant", "yo"⟩] [] 10
    c2FirstSave.1

/-- The same two saves through the shadowed (second-registered) handler. -/
def c2FirstSaveMerge : ChatDB × SaveResponse :=
  save_chat_session_v2 "u" [⟨"user", "hi"⟩] [] 0 emptyChatDB

def c2SecondSaveMerge : ChatDB × SaveResponse :=
  save_chat_session_v2 "u" [⟨"user", "hi"⟩, ⟨"assistant", "yo"⟩] [] 10
    c2FirstSaveMerge.1

/-- C2 (code bug): the route table registers two handlers for
`POST /api/chat/save` and dispatch selects the first, which inserts a new
session on every save.  Two saves 10 seconds apart therefore leave two
session documents with distinct ids — not one merged session.  The shadowed
second handler (the one the spec describes) would have merged them. -/
theorem save_route_shadowing_breaks_merge :
    dispatchChatSave = some save_chat_session_v1 ∧
    (c2SecondSave.1.sessions.filter (fun s => s.user_id == "u")).length = 2 ∧
    c2FirstSave.2.session_id ≠ c2SecondSave.2.session_id ∧
    (c2SecondSaveMerge.1.sessions.filter (fun s => s.user_id == "u")).length = 1 ∧
    c2FirstSaveMerge.2.session_id = c2SecondSaveMerge.2.session_id :=
  ⟨rfl, by decide, by decide, by decide, by decide⟩

/-- Six saves for one user, each 4000 seconds after the previous one (all
outside the 3600-second freshness window), folded through a save handler. -/
def c3SixSaves (h : SaveHandler) : ChatDB :=
  (([0, 4000, 8000, 12000, 16000, 20000] : List Nat).foldl
    (fun db t => (h "u" [⟨"user", "hi"⟩] [] t db).1) emptyChatDB)

/-- C3 (code bug): with the dispatched (first-registered) handler the
retention pruning never runs, so six out-of-window saves leave six stored
sessions and `GET /api/chat/history` (default limit 10) returns six of them;
the shadowed second handler would have kept only five. -/
theorem session_retention_not_enforced :
    dispatchChatSave = some save_chat_session_v1 ∧
    ((c3SixSaves save_chat_session_v1).sessions.filter
      (fun s => s.user_id == "u")).length = 6 ∧
    (get_chat_history 10 "u" (c3SixSaves save_chat_session_v1)).2 = 6 ∧
    ((c3SixSaves save_chat_session_v2).sessions.filter
      (fun s => s.user_id == "u")).length = 5 ∧
    (get_chat_history 10 "u" (c3SixSaves save_chat_session_v2)).2 = 5 :=
  ⟨rfl, by decide, by decide, by decide, by decide⟩

/-! ## Workflow lemmas (claims C4 and C9) -/

theorem extract_node_retry_count (r : ExtractOutcome) (s : EarningsAgentState) :
    (extract_node r s).retry_count = s.retry_count := by
  cases r <;> rfl

theorem summarize_node_retry_count (r : SummarizeOutcome) (s : EarningsAgentState) :
    (summarize_node r s).retry_count = s.retry_count := by
  cases r <;> rfl

/-- Once the workflow is at `extract`, the remaining trace is `[extract]` or
`[extract, summarize]` — it never revisits `retry` — and the retry counter is
unchanged. -/
theorem runFrom_extract_spec (o : WorkflowOracle) (fuel : Nat)
    (s : EarningsAgentState) (k : Nat) :
    ((runFrom o (fuel + 2) WNode.extract (s, k)).2 = [WNode.extract] ∨
      (runFrom o (fuel + 2) WNode.extract (s, k)).2 =
        [WNode.extract, WNode.summarize]) ∧
    (runFrom o (fuel + 2) WNode.extract (s, k)).1.retry_count = s.retry_count := by
  cases hre : route_after_extract (extract_node o.extract s) with
  | false =>
      constructor
      · left
        simp [runFrom, execNode, nextNode, extractEdgeMap, hre]
      · simp [runFrom, execNode, nextNode, extractEdgeMap, hre,
          extract_node_retry_count]
  | true =>
      constructor
      · right
        simp [runFrom, execNode, nextNode, extractEdgeMap, hre]
      · simp [runFrom, execNode, nextNode, extractEdgeMap, hre,
          extract_node_retry_count, summarize_node_retry_count]

/-- One-step unfolding of `runFrom` when the executed node has no successor. -/
theorem runFrom_stop (o : WorkflowOracle) (fuel : Nat) (n : WNode)
    (s : EarningsAgentState) (k : Nat)
    (h : nextNode n (execNode o n (s, k)).1 = none) :
    runFrom o (fuel + 1) n (s, k) = ((execNode o n (s, k)).1, [n]) := by
  simp only [runFrom, h]

/-- One-step unfolding of `runFrom` when the executed node routes onward. -/
theorem runFrom_go (o : WorkflowOracle) (fuel : Nat) (n n' : WNode)
    (s : EarningsAgentState) (k : Nat)
    (h : nextNode n (execNode o n (s, k)).1 = some n') :
    runFrom o (fuel + 1) n (s, k) =
      ((runFrom o fuel n' (execNode o n (s, k))).1,
        n :: (runFrom o fuel n' (execNode o n (s, k))).2) := by
  simp only [runFrom, h]

theorem search_node_error (r : SearchOutcome) (s : EarningsAgentState) :
    (search_node r s).error =
      (match r with
        | .found _ _ _ => s.error
        | .notFound e => some e
        | .exc e => some e) := by
  cases r <;> rfl

theorem search_node_retry_count (r : SearchOutcome) (s : EarningsAgentState) :
    (search_node r s).retry_count = s.retry_count := by
  cases r <;> rfl

theorem search_node_url (r : SearchOutcome) (s : EarningsAgentState) :
    (search_node r s).transcript_url =
      (match r with
        | .found u _ _ => u
        | _ => s.transcript_url) := by
  cases r <;> rfl

theorem search_node_source (r : SearchOutcome) (s : EarningsAgentState) :
    (search_node r s).transcript_source =
      (match r with
        | .found _ _ src => src
        | _ => s.transcript_source) := by
  cases r <;> rfl

theorem retry_node_error (r : SearchOutcome) (s : EarningsAgentState) :
    (retry_node r s).error =
      (match r with
        | .found _ _ _ => none
        | .notFound e => some e
        | .exc e => some e) := by
  cases r <;> rfl

theorem retry_node_retry_count (r : SearchOutcome) (s : EarningsAgentState) :
    (retry_node r s).retry_count = s.retry_count + 1 := by
  cases r <;> rfl

theorem retry_node_url (r : SearchOutcome) (s : EarningsAgentState) :
    (retry_node r s).transcript_url =
      (match r with
        | .found u _ _ => u
        | _ => s.transcript_url) := by
  cases r <;> rfl

theorem retry_node_source (r : SearchOutcome) (s : EarningsAgentState) :
    (retry_node r s).transcript_source =
      (match r with
        | .found _ _ src => src
        | _ => s.transcript_source) := by
  cases r <;> rfl

/-- Field facts about `search_node` on a failing outcome. -/
theorem search_node_fail_fields (r : SearchOutcome) (s : EarningsAgentState)
    (e : String) (h : searchErr r = some e) :
    (search_node r s).error = some e ∧
    (search_node r s).retry_count = s.retry_count ∧
    (search_node r s).transcript_url = s.transcript_url ∧
    (search_node r s).transcript_source = s.transcript_source := by
  cases r <;> simp_all [search_node, searchErr]

/-- Field facts about `retry_node` on a failing second search outcome. -/
theorem retry_node_fail_fields (r : SearchOutcome) (s : EarningsAgentState)
    (e : String) (h : searchErr r = some e) :
    (retry_node r s).error = some e ∧
    (retry_node r s).retry_count = s.retry_count + 1 ∧
    (retry_node r s).transcript_url = s.transcript_url ∧
    (retry_node r s).transcript_source = s.transcript_source := by
  cases r <;> simp_all [retry_node, search_node, searchErr]

/-- If the first search invocation fails, the workflow enters `retry`
exactly once and the final retry counter is 1; when the second search
invocation fails too, the run stops right after `retry` with the second
error recorded and no transcript URL or source. -/
theorem run_workflow_search_fails_first (o : WorkflowOracle) (t q y : String)
    (h1 : searchErr (o.search 0) ≠ none) :
    (run_workflow o t q y).2.count WNode.retry = 1 ∧
    (run_workflow o t q y).1.retry_count = 1 ∧
    (searchErr (o.search 1) ≠ none →
      (run_workflow o t q y).2 = [WNode.search, WNode.retry] ∧
      (run_workflow o t q y).1.error = searchErr (o.search 1) ∧
      (run_workflow o t q y).1.transcript_url = "" ∧
      (run_workflow o t q y).1.transcript_source = "") := by
  obtain ⟨e1, he1⟩ := Option.ne_none_iff_exists'.1 h1
  set s0 := initial_state t q y with hs0
  have hs0f : s0.retry_count = 0 ∧ s0.transcript_url = "" ∧
      s0.transcript_source = "" := ⟨rfl, rfl, rfl⟩
  set sA := search_node (o.search 0) s0 with hsA'
  have hAf := search_node_fail_fields (o.search 0) s0 e1 he1
  rw [← hsA'] at hAf
  -- the first executed node is `search`; it fails, so it routes to `retry`
  have hroute : nextNode WNode.search (execNode o WNode.search (s0, 0)).1 =
      some WNode.retry := by
    show nextNode WNode.search sA = some WNode.retry
    simp [nextNode, route_after_search, searchEdgeMap, hAf.1, hAf.2.1, hs0f.1]
  have hrun : run_workflow o t q y =
      ((runFrom o 24 WNode.retry (sA, 1)).1,
        WNode.search :: (runFrom o 24 WNode.retry (sA, 1)).2) := by
    show runFrom o 25 WNode.search (s0, 0) = _
    exact runFrom_go o 24 WNode.search WNode.retry s0 0 hroute
  have hexecB : execNode o WNode.retry (sA, 1) =
      (retry_node (o.search 1) sA, 2) := rfl
  set sB := retry_node (o.search 1) sA with hsB'
  rcases h2 : o.search 1 with ⟨u2, t2, src2⟩ | e2 | e2
  · -- retry's search succeeded: it routes to extract iff the URL is nonempty
    have hBerr : sB.error = none := by
      rw [hsB', h2, retry_node_error]
    have hBretry : sB.retry_count = 1 := by
      rw [hsB', retry_node_retry_count, hAf.2.1, hs0f.1]
    have hBurl : sB.transcript_url = u2 := by
      rw [hsB', h2, retry_node_url]
    by_cases hu : u2 = ""
    · have hBstop : nextNode WNode.retry (execNode o WNode.retry (sA, 1)).1 =
          none := by
        rw [hexecB]
        simp [nextNode, route_after_search, retryEdgeMap, hBerr, hBurl, hu]
      have hrunB : runFrom o 24 WNode.retry (sA, 1) = (sB, [WNode.retry]) := by
        rw [runFrom_stop o 23 WNode.retry sA 1 hBstop, hexecB]
      rw [hrun, hrunB]
      exact ⟨rfl, hBretry, by intro hc; simp [searchErr] at hc⟩
    · have hBgo : nextNode WNode.retry (execNode o WNode.retry (sA, 1)).1 =
          some WNode.extract := by
        rw [hexecB]
        simp [nextNode, route_after_search, retryEdgeMap, hBerr, hBurl, hu]
      have hrunB : runFrom o 24 WNode.retry (sA, 1) =
          ((runFrom o 23 WNode.extract (sB, 2)).1,
            WNode.retry :: (runFrom o 23 WNode.extract (sB, 2)).2) := by
        rw [runFrom_go o 23 WNode.retry WNode.extract sA 1 hBgo, hexecB]
      have hext := runFrom_extract_spec o 21 sB 2
      rw [hrun, hrunB]
      refine ⟨?_, ?_, by intro hc; simp [searchErr] at hc⟩
      · rcases hext.1 with he | he <;> rw [he] <;> rfl
      · rw [hext.2, hBretry]
  all_goals (
    -- retry's search failed again: the run stops at retry, error set, no URL
    have he2 : searchErr (o.search 1) = some e2 := by rw [h2]; rfl
    have hBf := retry_node_fail_fields (o.search 1) sA e2 he2
    rw [← hsB'] at hBf
    have hBretry : sB.retry_count = 1 := by
      rw [hBf.2.1, hAf.2.1, hs0f.1]
    have hBstop : nextNode WNode.retry (execNode o WNode.retry (sA, 1)).1 =
        none := by
      rw [hexecB]
      simp [nextNode, route_after_search, retryEdgeMap, hBf.1, hBretry]
    have hrunB : runFrom o 24 WNode.retry (sA, 1) = (sB, [WNode.retry]) := by
      rw [runFrom_stop o 23 WNode.retry sA 1 hBstop, hexecB]
    rw [hrun, hrunB]
    refine ⟨rfl, hBretry, fun _ => ⟨rfl, ?_, ?_, ?_⟩⟩
    · rw [hBf.1]; simp [searchErr]
    · rw [hBf.2.2.1, hAf.2.2.1, hs0f.2.1]
    · rw [hBf.2.2.2, hAf.2.2.2, hs0f.2.2])

/-- C4: if the search state sets an error on its first execution (retry
counter 0), the workflow enters the retry state exactly once, ending with
retry counter 1; and if the search logic re-run by retry errors again, the
run terminates immediately after retry (trace `[search, retry]`, no second
retry) with the error field carrying the second error. -/
theorem workflow_single_retry (o : WorkflowOracle) (t q y : String)
    (h1 : searchErr (o.search 0) ≠ none) :
    (run_workflow o t q y).2.count WNode.retry = 1 ∧
    (run_workflow o t q y).1.retry_count = 1 ∧
    (searchErr (o.search 1) ≠ none →
      (run_workflow o t q y).2 = [WNode.search, WNode.retry] ∧
      (run_workflow o t q y).1.error = searchErr (o.search 1)) :=
  let h := run_workflow_search_fails_first o t q y h1
  ⟨h.1, h.2.1, fun hc => ⟨(h.2.2 hc).1, (h.2.2 hc).2.1⟩⟩

/-- An oracle whose search service fails on every invocation. -/
def oracleFailTwice : WorkflowOracle :=
  { search := fun _ =>
      .notFound "No calendar Q1 2024 earnings found for AAPL",
    extract := .fail "Could not extract sufficient content from URL",
    summarize := .exc "completion error" }

/-- Witness for C4: a concrete run whose search fails twice. -/
theorem workflow_single_retry_witness :
    (run_workflow oracleFailTwice "AAPL" "Q1" "2024").2.count WNode.retry = 1 ∧
    (run_workflow oracleFailTwice "AAPL" "Q1" "2024").1.retry_count = 1 ∧
    ((run_workflow oracleFailTwice "AAPL" "Q1" "2024").2 =
        [WNode.search, WNode.retry] ∧
      (run_workflow oracleFailTwice "AAPL" "Q1" "2024").1.error =
        searchErr (oracleFailTwice.search 1)) := by
  have h := workflow_single_retry oracleFailTwice "AAPL" "Q1" "2024"
    (by simp [oracleFailTwice, searchErr])
  exact ⟨h.1, h.2.1, h.2.2 (by simp [oracleFailTwice, searchErr])⟩

/-- C9 (amended): the final result exposes ticker, quarter, year, the
combined time-period label `quarter ++ " " ++ year`, summary, source URL,
the full ordered narration log and the error field, all taken from the final
workflow state; the source label equals the state's `transcript_source`
field, which is the empty string — not "Unknown" — when no source was
determined (the key is always present in the state, so the `.get` default
"Unknown" is unreachable). -/
theorem analysis_result_exposes_state (o : WorkflowOracle) (t q y : String) :
    (run_earnings_analysis o t q y).ticker = (run_workflow o t q y).1.ticker ∧
    (run_earnings_analysis o t q y).quarter =
      (run_workflow o t q y).1.quarter ∧
    (run_earnings_analysis o t q y).year = (run_workflow o t q y).1.year ∧
    (run_earnings_analysis o t q y).time_period =
      (run_workflow o t q y).1.quarter ++ " " ++ (run_workflow o t q y).1.year ∧
    (run_earnings_analysis o t q y).summary =
      (run_workflow o t q y).1.summary ∧
    (run_earnings_analysis o t q y).source_url =
      (run_workflow o t q y).1.transcript_url ∧
    (run_earnings_analysis o t q y).source =
      (run_workflow o t q y).1.transcript_source ∧
    (run_earnings_analysis o t q y).steps =
      (run_workflow o t q y).1.messages ∧
    (run_earnings_analysis o t q y).error = (run_workflow o t q y).1.error ∧
    (searchErr (o.search 0) ≠ none → searchErr (o.search 1) ≠ none →
      (run_earnings_analysis o t q y).source = "" ∧
      (run_earnings_analysis o t q y).source_url = "" ∧
      (run_earnings_analysis o t q y).error = searchErr (o.search 1)) := by
  refine ⟨rfl, rfl, rfl, rfl, rfl, rfl, rfl, rfl, rfl, ?_⟩
  intro ha hb
  obtain ⟨_, _, h3⟩ := run_workflow_search_fails_first o t q y ha
  obtain ⟨_, herr, hurl, hsrc⟩ := h3 hb
  exact ⟨hsrc, hurl, herr⟩

/-- C9 counterexample: when no source was determined (both searches fail),
the result's source label is the empty string, not "Unknown". -/
theorem analysis_source_label_counterexample :
    (run_earnings_analysis oracleFailTwice "AAPL" "Q1" "2024").source_url = "" ∧
    (run_earnings_analysis oracleFailTwice "AAPL" "Q1" "2024").source = "" ∧
    (run_earnings_analysis oracleFailTwice "AAPL" "Q1" "2024").source ≠
      "Unknown" := by
  refine ⟨rfl, rfl, by decide⟩

/-- Witness for C9 at a concrete input. -/
theorem analysis_result_exposes_state_witness :
    (run_earnings_analysis oracleFailTwice "AAPL" "Q1" "2024").time_period =
      (run_workflow oracleFailTwice "AAPL" "Q1" "2024").1.quarter ++ " " ++
        (run_workflow oracleFailTwice "AAPL" "Q1" "2024").1.year ∧
    (run_earnings_analysis oracleFailTwice "AAPL" "Q1" "2024").steps =
      (run_workflow oracleFailTwice "AAPL" "Q1" "2024").1.messages ∧
    (run_earnings_analysis oracleFailTwice "AAPL" "Q1" "2024").error =
      searchErr (oracleFailTwice.search 1) := by
  have h := analysis_result_exposes_state oracleFailTwice "AAPL" "Q1" "2024"
  refine ⟨h.2.2.2.1, h.2.2.2.2.2.2.2.1, ?_⟩
  exact (h.2.2.2.2.2.2.2.2.2 (by simp [oracleFailTwice, searchErr])
    (by simp [oracleFailTwice, searchErr])).2.2

/-- C6 (code bug): the handler's own 400 `HTTPException`s (invalid quarter,
missing fields) are caught by its blanket `except Exception` clause and
re-raised as 500, so the client receives 500, not 400. -/
theorem earnings_analyze_validation_swallowed :
    earnings_analyze_body oracleFailTwice
      ⟨some "AAPL", some "Q5", some "2024"⟩ =
      .error (.http 400 "quarter must be Q1, Q2, Q3, or Q4") ∧
    earnings_analyze_endpoint oracleFailTwice
      ⟨some "AAPL", some "Q5", some "2024"⟩ =
      .failure 500 "400: quarter must be Q1, Q2, Q3, or Q4" ∧
    earnings_analyze_body oracleFailTwice ⟨some "AAPL", none, some "2024"⟩ =
      .error (.http 400 "ticker, quarter, and year are required") ∧
    replyStatus (earnings_analyze_endpoint oracleFailTwice
      ⟨some "AAPL", none, some "2024"⟩) = 500 := by
  exact ⟨rfl, rfl, rfl, rfl⟩

/-- C7 (code bug): `get_current_user_info` raises a 404 for an unknown user
id, but its blanket `except Exception` clause catches that `HTTPException`
and re-raises it as a 500, so the client receives 500, not 404. -/
theorem auth_me_missing_user_swallowed :
    get_current_user_info_body
      ⟨"507f191e810c19729de860ea", "user@example.com"⟩ [] =
      .error (.http 404 "User not found") ∧
    get_current_user_info
      ⟨"507f191e810c19729de860ea", "user@example.com"⟩ [] =
      .failure 500 "404: User not found" ∧
    replyStatus (get_current_user_info
      ⟨"507f191e810c19729de860ea", "user@example.com"⟩ []) ≠ 404 := by
  exact ⟨rfl, rfl, by decide⟩

/-- C8 (code bug): chat.py imports `run_earnings_agent` from the agent
module, which only defines `run_earnings_analysis`; the import fails, so the
orchestrator can never run the Earnings Analysis Workflow.  The argument
defaults it would have applied (scoping ticker, "latest") are as written at
chat.py lines 94–97. -/
theorem chat_orchestrator_binding_broken :
    importFromAgent "run_earnings_agent" =
      .error
        "ImportError: cannot import name run_earnings_agent from finhelp.agent" ∧
    agentModuleDefs.contains "run_earnings_analysis" = true ∧
    earningsToolCallArgs ⟨none, none⟩ "AAPL" = ("AAPL", "latest") ∧
    earningsToolCallArgs ⟨some "TSLA", some "Q3 2024"⟩ "AAPL" =
      ("TSLA", "Q3 2024") := by
  exact ⟨rfl, by decide, rfl, rfl⟩

/-! ## Character and substring lemmas (claim C5) -/

theorem lowerChar_space : lowerChar ' ' = ' ' := rfl

theorem lowerChar_of_isDigit (c : Char) (h : c.isDigit = true) :
    lowerChar c = c := by
  unfold lowerChar
  split <;> simp_all

theorem lowerChar_digit_fix (c : Char) (h : (lowerChar c).isDigit = true) :
    lowerChar c = c := by
  unfold lowerChar at *
  split at h <;> simp_all

theorem digits_map_lowerChar_self (p : List Char)
    (hd : ∀ c ∈ p, c.isDigit = true) : p.map lowerChar = p := by
  induction p with
  | nil => rfl
  | cons c cs ih =>
      simp only [List.map_cons]
      rw [lowerChar_of_isDigit c (hd c (List.mem_cons_self c cs)),
        ih (fun x hx => hd x (List.mem_cons_of_mem c hx))]

theorem map_lowerChar_digits (l : List Char) :
    ∀ (p : List Char), l.map lowerChar = p →
      (∀ c ∈ p, c.isDigit = true) → l = p := by
  induction l with
  | nil =>
      intro p h _
      simpa using h
  | cons c cs ih =>
      intro p h hd
      cases p with
      | nil => simp at h
      | cons d ds =>
          simp only [List.map_cons, List.cons.injEq] at h
          obtain ⟨h1, h2⟩ := h
          have hdd : (lowerChar c).isDigit = true := by
            rw [h1]; exact hd d (List.mem_cons_self d ds)
          have hfix : lowerChar c = c := lowerChar_digit_fix c hdd
          have hcd : c = d := by rw [← h1, hfix]
          rw [hcd, ih ds h2 (fun x hx => hd x (List.mem_cons_of_mem d hx))]

theorem infix_map_lowerChar_digits (p l : List Char)
    (hd : ∀ c ∈ p, c.isDigit = true) (h : p <:+: l.map lowerChar) :
    p <:+: l := by
  obtain ⟨s, t, hst⟩ := h
  obtain ⟨l₁, l₂, hl, h₁, h₂⟩ := (List.map_eq_append_iff).1
    (show l.map lowerChar = s ++ (p ++ t) by rw [← hst, List.append_assoc])
  obtain ⟨l₂a, l₂b, hl₂, h₂a, h₂b⟩ := (List.map_eq_append_iff).1 h₂
  have hpa : l₂a = p := map_lowerChar_digits l₂a p h₂a hd
  exact ⟨l₁, l₂b, by rw [hl, hl₂, hpa, List.append_assoc]⟩

theorem prefix_split_sep (p : List Char) :
    ∀ (l₁ l₂ : List Char) (c : Char), p <+: l₁ ++ c :: l₂ → c ∉ p →
      p <+: l₁ := by
  induction p with
  | nil => exact fun l₁ _ _ _ _ => List.nil_prefix
  | cons d p' ih =>
      intro l₁ l₂ c hp hc
      cases l₁ with
      | nil =>
          simp only [List.nil_append] at hp
          obtain ⟨hdc, -⟩ := (List.cons_prefix_cons).1 hp
          exact absurd (hdc ▸ List.mem_cons_self d p') hc
      | cons a l₁' =>
          simp only [List.cons_append] at hp
          obtain ⟨hda, hp'⟩ := (List.cons_prefix_cons).1 hp
          have hc' : c ∉ p' := fun hx => hc (List.mem_cons_of_mem d hx)
          rw [hda]
          exact (List.cons_prefix_cons).2 ⟨rfl, ih l₁' l₂ c hp' hc'⟩

theorem infix_split_sep (p : List Char) :
    ∀ (l₁ l₂ : List Char) (c : Char), p <:+: l₁ ++ c :: l₂ → c ∉ p →
      p <:+: l₁ ∨ p <:+: l₂ := by
  intro l₁
  induction l₁ with
  | nil =>
      intro l₂ c h hc
      simp only [List.nil_append] at h
      rcases (List.infix_cons_iff).1 h with hpre | hinf
      · cases p with
        | nil => exact Or.inl List.nil_infix
        | cons d p' =>
            obtain ⟨hdc, -⟩ := (List.cons_prefix_cons).1 hpre
            exact absurd (hdc ▸ List.mem_cons_self d p') hc
      · exact Or.inr hinf
  | cons a l₁' ih =>
      intro l₂ c h hc
      simp only [List.cons_append] at h
      rcases (List.infix_cons_iff).1 h with hpre | hinf
      · have : p <+: (a :: l₁') ++ c :: l₂ := by
          simpa using hpre
        exact Or.inl (prefix_split_sep p (a :: l₁') l₂ c this hc).isInfix
      · rcases ih l₂ c hinf hc with h1 | h2
        · exact Or.inl (h1.trans (List.suffix_cons a l₁').isInfix)
        · exact Or.inr h2

theorem strContains_iff (s pat : String) :
    strContains s pat = true ↔ pat.data <:+: s.data := by
  simp [strContains]

/-- The combined lowered text decomposes into the lowered fields separated
by the two joining spaces. -/
theorem combined_text_data (title url content : String) :
    (combined_text title url content).data =
      title.data.map lowerChar ++
        ' ' :: (url.data.map lowerChar ++
          ' ' :: content.data.map lowerChar) := by
  show ((title ++ " " ++ url ++ " " ++ content).data).map lowerChar = _
  have hsp : (" " : String).data = [' '] := rfl
  rw [String.data_append, String.data_append, String.data_append,
    String.data_append, hsp]
  simp [List.map_append, lowerChar_space, List.append_assoc]

/-- The lowered first calendar pattern ends in the year string (for an
all-digit year). -/
theorem phrase_data (quarter year : String)
    (hd : ∀ c ∈ year.data, c.isDigit = true) :
    (lowerStr (upperStr quarter ++ " " ++ year)).data =
      (upperStr quarter).data.map lowerChar ++ ' ' :: year.data := by
  show ((upperStr quarter ++ " " ++ year).data).map lowerChar = _
  have hsp : (" " : String).data = [' '] := rfl
  rw [String.data_append, String.data_append, hsp]
  simp [List.map_append, lowerChar_space,
    digits_map_lowerChar_self year.data hd, List.append_assoc]

theorem year_in_some_field (title url content year : String)
    (hd : ∀ c ∈ year.data, c.isDigit = true)
    (hin : year.data <:+: (combined_text title url content).data) :
    has_year_field year title url content = true := by
  rw [combined_text_data] at hin
  have hns : ' ' ∉ year.data := by
    intro hsp
    have := hd ' ' hsp
    simp [Char.isDigit] at this
  have hfield : year.data <:+: title.data ∨ year.data <:+: url.data ∨
      year.data <:+: content.data := by
    rcases infix_split_sep year.data _ _ ' ' hin hns with h1 | hrest
    · exact Or.inl (infix_map_lowerChar_digits year.data title.data hd h1)
    · rcases infix_split_sep year.data _ _ ' ' hrest hns with h2 | h3
      · exact Or.inr (Or.inl
          (infix_map_lowerChar_digits year.data url.data hd h2))
      · exact Or.inr (Or.inr
          (infix_map_lowerChar_digits year.data content.data hd h3))
    -- (associativity handled by the shapes above)
  rcases hfield with h | h | h <;>
    simp [has_year_field, (strContains_iff _ _).2 h]

/-- C5 (amended): a transcript-search candidate that passes the transcript
and ticker filters is accepted when the combined lowered text contains the
lowered phrase `"{quarter} {year}"` for a 4-digit year **and** the fiscal
marker guard does not fire; and a candidate whose combined text carries the
fiscal marker but matches no calendar-quarter phrase and no month-with-year
is rejected. -/
theorem transcript_calendar_filter :
    (∀ ticker quarter year title url content : String,
      year.length = 4 →
      year.data.all Char.isDigit = true →
      is_transcript_result title url = true →
      mentions_ticker ticker title url = true →
      strContains (combined_text title url content)
        (lowerStr (upperStr quarter ++ " " ++ year)) = true →
      fiscal_year_reject year (combined_text title url content) = false →
      acceptResult ticker quarter year title url content = true) ∧
    (∀ ticker quarter year title url content : String,
      fiscal_year_reject year (combined_text title url content) = true →
      has_calendar_quarter quarter year
        (combined_text title url content) = false →
      acceptResult ticker quarter year title url content = false) := by
  constructor
  · intro ticker quarter year title url content _hlen hdigits htr htk hph hfy
    have hd : ∀ c ∈ year.data, c.isDigit = true := by
      simpa [List.all_eq_true] using hdigits
    have hcal : has_calendar_quarter quarter year
        (combined_text title url content) = true := by
      simp [has_calendar_quarter, calendar_quarter_patterns, hph]
    have hyinf : year.data <:+: (combined_text title url content).data := by
      refine List.IsInfix.trans ?_ ((strContains_iff _ _).1 hph)
      rw [phrase_data quarter year hd]
      exact ⟨(upperStr quarter).data.map lowerChar ++ [' '], [], by simp⟩
    have hyear := year_in_some_field title url content year hd hyinf
    simp [acceptResult, htr, htk, hfy, hcal, hyear]
  · intro ticker quarter year title url content hfy hcal
    simp [acceptResult, hfy, hcal]

set_option maxRecDepth 8000 in
/-- C5 counterexample: a candidate that passes the transcript and ticker
filters and whose combined text contains the phrase "q1 2024" is
nevertheless rejected, because the text also carries the fiscal marker
"fy24" and the fiscal guard fires before acceptance. -/
theorem transcript_calendar_filter_counterexample :
    is_transcript_result "AAPL Q1 2024 FY24 Earnings Call Transcript"
      "https://site.com/aapl" = true ∧
    mentions_ticker "AAPL" "AAPL Q1 2024 FY24 Earnings Call Transcript"
      "https://site.com/aapl" = true ∧
    strContains
      (combined_text "AAPL Q1 2024 FY24 Earnings Call Transcript"
        "https://site.com/aapl" "text")
      (lowerStr (upperStr "Q1" ++ " " ++ "2024")) = true ∧
    acceptResult "AAPL" "Q1" "2024"
      "AAPL Q1 2024 FY24 Earnings Call Transcript"
      "https://site.com/aapl" "text" = false := by
  exact ⟨by decide, by decide, by decide, by decide⟩

set_option maxRecDepth 8000 in
/-- Witness for C5 at concrete inputs: a plain calendar-quarter result is
accepted; a fiscal-marker result with no calendar phrase is rejected. -/
theorem transcript_calendar_filter_witness :
    acceptResult "AAPL" "Q1" "2024" "AAPL Q1 2024 Earnings Call Transcript"
      "https://site.com/aapl" "text" = true ∧
    acceptResult "AAPL" "Q1" "2024" "AAPL FY24 Earnings Call Transcript"
      "https://site.com/aapl" "fy24 text" = false := by
  constructor
  · exact transcript_calendar_filter.1 "AAPL" "Q1" "2024"
      "AAPL Q1 2024 Earnings Call Transcript" "https://site.com/aapl" "text"
      (by decide) (by decide) (by decide) (by decide) (by decide) (by decide)
  · exact transcript_calendar_filter.2 "AAPL" "Q1" "2024"
      "AAPL FY24 Earnings Call Transcript" "https://site.com/aapl" "fy24 text"
      (by decide) (by decide)

end FinHelp
